import Mathlib

/-!
Verification of the unsugar-io-api authentication core against its
natural-language specification.

The development shallowly embeds the JavaScript source:

* `src/utils/jwt.js`            → `generateAccessToken`, `generateRefreshToken`,
                                  `verifyAccessToken`, `verifyRefreshToken`
* `src/models/User.js`          → `User`, `comparePassword`, `changedPasswordAfter`,
                                  `linkOAuthProvider`, `unlinkOAuthProvider`,
                                  `addRefreshToken`, `removeRefreshToken`,
                                  `cleanupExpiredTokens`, `userToJSON`,
                                  the conditional `required` validator on `password`
* `src/middleware/auth.js`      → `authenticate`, the error classes and `errorHandler`
* `src/routes/auth.js`          → `register`, `login`, `refreshHandler`, `logoutRemove`
* `src/config/passport.js`      → `githubCallback`

Machine integers do not occur; JavaScript numbers used here are epoch
timestamps and counters, embedded as `Nat` (milliseconds, and seconds for JWT
claims, exactly as the source mixes them).  Fallible code returns `Except`.
The external `jsonwebtoken` library is modelled symbolically: a signed token
is its claim set together with the secret that signed it, and signature
verification is equality of secrets.  The external `bcryptjs` library is
modelled as an injective tagging of the plaintext with equality comparison;
no claim depends on properties of the hash beyond round-tripping.
-/

namespace Unsugar

/-! ## JWT model (`src/utils/jwt.js`) -/

/-- JWT claim set as produced by this codebase: `{ userId, role?, type, iat, exp }`.
`iat` and `exp` are epoch seconds as in the JWT standard. -/
structure Claims where
  userId : String
  role : Option String
  typ : String
  iat : Nat
  exp : Nat
  deriving DecidableEq, Repr

/-- A signed JWT: the claims plus the secret that signed it.  Signature
verification against a secret succeeds exactly when the secrets agree,
which models an unforgeable signature scheme. -/
structure Token where
  claims : Claims
  secret : String
  deriving DecidableEq, Repr

def ACCESS_TOKEN_SECRET : String := "dev-access-secret-change-in-production"
def REFRESH_TOKEN_SECRET : String := "dev-refresh-secret-change-in-production"

/-- `'15m'` in seconds. -/
def ACCESS_TOKEN_EXPIRY_S : Nat := 15 * 60
/-- `'7d'` in seconds. -/
def REFRESH_TOKEN_EXPIRY_S : Nat := 7 * 24 * 60 * 60

/-- Errors raised by the modelled `jsonwebtoken.verify`. -/
inductive JwtVerifyError where
  | invalidSignature
  | expired
  deriving DecidableEq, Repr

/-- `jwt.verify(token, secret)` at clock `now` (epoch seconds): the signature
must have been produced with `secret` and the token must not be expired. -/
def jwtVerify (t : Token) (secret : String) (now : Nat) : Except JwtVerifyError Claims :=
  if t.secret ≠ secret then .error .invalidSignature
  else if t.claims.exp ≤ now then .error .expired
  else .ok t.claims

/-- `generateAccessToken(userId, role)` from `src/utils/jwt.js`:
signs `{ userId, role, type: 'access' }` with the access secret, 15 minute
expiry.  `now` is the signing clock in epoch seconds. -/
def generateAccessToken (userId : String) (role : String) (now : Nat) : Token :=
  { claims := { userId := userId, role := some role, typ := "access",
                iat := now, exp := now + ACCESS_TOKEN_EXPIRY_S },
    secret := ACCESS_TOKEN_SECRET }

/-- `generateRefreshToken(userId)` from `src/utils/jwt.js`:
signs `{ userId, type: 'refresh' }` with the refresh secret, 7 day expiry. -/
def generateRefreshToken (userId : String) (now : Nat) : Token :=
  { claims := { userId := userId, role := none, typ := "refresh",
                iat := now, exp := now + REFRESH_TOKEN_EXPIRY_S },
    secret := REFRESH_TOKEN_SECRET }

/-- A JavaScript `Error` value as far as the error-handling middleware
inspects it: `name`, `message`, and the optional `statusCode`/`code`
properties set by the custom `AppError` classes.  A Mongo duplicate-key
error carries a numeric `code` (11000); the `AppError` classes carry a
string `code`; both are own properties called `code` in JS and are kept
apart here by type. -/
structure JSError where
  name : String
  message : String
  statusCode : Option Nat := none
  codeStr : Option String := none
  codeNum : Option Nat := none
  deriving DecidableEq, Repr

/-- A plain `new Error(message)`: name `"Error"`, no statusCode/code. -/
def plainError (msg : String) : JSError := { name := "Error", message := msg }

/-- `verifyAccessToken(token)` from `src/utils/jwt.js`.  Any failure of
`jwt.verify` — and also a wrong `type` claim, whose inner
`Error('Invalid token type')` is caught by the function's own `catch` —
is rethrown as the plain `Error('Invalid or expired access token')`. -/
def verifyAccessToken (t : Token) (now : Nat) : Except JSError Claims :=
  match jwtVerify t ACCESS_TOKEN_SECRET now with
  | .error _ => .error (plainError "Invalid or expired access token")
  | .ok c =>
    if c.typ ≠ "access" then .error (plainError "Invalid or expired access token")
    else .ok c

/-- `verifyRefreshToken(token)` from `src/utils/jwt.js`, symmetric to
`verifyAccessToken` with the refresh secret and `type === 'refresh'`. -/
def verifyRefreshToken (t : Token) (now : Nat) : Except JSError Claims :=
  match jwtVerify t REFRESH_TOKEN_SECRET now with
  | .error _ => .error (plainError "Invalid or expired refresh token")
  | .ok c =>
    if c.typ ≠ "refresh" then .error (plainError "Invalid or expired refresh token")
    else .ok c

/-! ## Error classes and `errorHandler` (`src/middleware/errorHandler`) -/

/-- `new AuthenticationError(message)`: status 401, code `AUTHENTICATION_ERROR`.
Note the class does not override `name`, so instances keep name `"Error"`. -/
def mkAuthenticationError (msg : String) : JSError :=
  { name := "Error", message := msg, statusCode := some 401,
    codeStr := some "AUTHENTICATION_ERROR" }

/-- `new ValidationError(message)`: status 400, code `VALIDATION_ERROR`. -/
def mkValidationError (msg : String) : JSError :=
  { name := "Error", message := msg, statusCode := some 400,
    codeStr := some "VALIDATION_ERROR" }

/-- `new ConflictError(message)`: status 409, code `CONFLICT_ERROR`. -/
def mkConflictError (msg : String) : JSError :=
  { name := "Error", message := msg, statusCode := some 409,
    codeStr := some "CONFLICT_ERROR" }

/-- The global `errorHandler` middleware, reduced to the
`(statusCode, code)` pair it sends: the chain of `if` statements maps the
known Mongoose/JWT error shapes to `AppError`s, and everything else falls
through to `statusCode || 500` and `code || 'INTERNAL_ERROR'`. -/
def errorHandler (err : JSError) : Nat × String :=
  let e0 := err
  let e1 := if err.name = "ValidationError" then mkValidationError "Validation failed" else e0
  let e2 := if err.codeNum = some 11000 then mkConflictError "duplicate" else e1
  let e3 := if err.name = "CastError" then mkValidationError "Invalid value" else e2
  let e4 := if err.name = "JsonWebTokenError" then mkAuthenticationError "Invalid token" else e3
  let e5 := if err.name = "TokenExpiredError" then mkAuthenticationError "Token expired" else e4
  (e5.statusCode.getD 500, e5.codeStr.getD "INTERNAL_ERROR")

/-! ## User model (`src/models/User.js`) -/

/-- External `bcryptjs`, modelled as an injective tagging of the plaintext.
The source only ever calls `hash` and `compare`; no claim depends on any
other property of the hash. -/
def bcryptHash (plaintext : String) : String := "bcrypt$" ++ plaintext

/-- `bcrypt.compare(candidate, hash)`. -/
def bcryptCompare (candidate hash : String) : Bool := hash == bcryptHash candidate

/-- One element of the `oauthProviders` array in `userSchema`. -/
structure OAuthProviderEntry where
  provider : String
  providerId : String
  email : Option String := none
  displayName : Option String := none
  avatar : Option String := none
  accessToken : Option String := none
  refreshToken : Option String := none
  /-- `connectedAt`, epoch milliseconds (`Date`), defaulted to `Date.now()`. -/
  connectedAt : Nat := 0
  deriving DecidableEq, Repr

/-- One element of the `refreshTokens` array in `userSchema`.  The source
stores the refresh-token JWT string; since the modelled signing function is
deterministic and injective, the stored string is represented by the
`Token` value itself. -/
structure RefreshTokenEntry where
  token : Token
  /-- `createdAt`, epoch milliseconds, defaulted to `Date.now()`. -/
  createdAt : Nat := 0
  /-- `expiresAt`, epoch milliseconds. -/
  expiresAt : Nat := 0
  device : Option String := none
  ipAddress : Option String := none
  deriving DecidableEq, Repr

/-- The `userSchema` document.  Timestamps are epoch milliseconds. -/
structure User where
  id : String
  email : String
  name : String
  avatar : Option String := none
  /-- Stored bcrypt hash; absent for OAuth-only accounts. -/
  password : Option String := none
  googleId : Option String := none
  githubId : Option String := none
  appleId : Option String := none
  oauthProviders : List OAuthProviderEntry := []
  role : String := "user"
  isVerified : Bool := false
  isActive : Bool := true
  refreshTokens : List RefreshTokenEntry := []
  lastLogin : Option Nat := none
  passwordChangedAt : Option Nat := none
  deriving DecidableEq, Repr

/-- `userSchema.methods.comparePassword`: `false` when no password is stored,
otherwise `bcrypt.compare`. -/
def comparePassword (u : User) (candidatePassword : String) : Bool :=
  match u.password with
  | none => false
  | some h => bcryptCompare candidatePassword h

/-- `userSchema.methods.changedPasswordAfter(JWTTimestamp)`:
when `passwordChangedAt` is set, compares the JWT `iat` (seconds) against
`parseInt(passwordChangedAt.getTime() / 1000)`. -/
def changedPasswordAfter (u : User) (jwtTimestamp : Nat) : Bool :=
  match u.passwordChangedAt with
  | some changedMs => jwtTimestamp < changedMs / 1000
  | none => false

/-- The OAuth profile object the passport strategies pass to
`linkOAuthProvider`: `{ id, email, displayName, avatar, emailVerified }`. -/
structure OAuthProfile where
  id : String
  email : String
  displayName : Option String := none
  avatar : Option String := none
  emailVerified : Bool := false
  deriving DecidableEq, Repr

/-- Updating the first `oauthProviders` entry whose `provider` matches, as the
source's `find`-then-mutate does. -/
def updateFirstProvider (provider : String) (p : OAuthProfile) :
    List OAuthProviderEntry → List OAuthProviderEntry
  | [] => []
  | e :: rest =>
    if e.provider == provider then
      { e with providerId := p.id, email := some p.email,
               displayName := p.displayName, avatar := p.avatar } :: rest
    else e :: updateFirstProvider provider p rest

/-- `userSchema.methods.linkOAuthProvider(provider, profile)`.  When an entry
for the provider already exists its fields are updated in place (and the
provider-id field on the User is NOT touched); otherwise a new entry is
pushed and the matching `googleId`/`githubId`/`appleId` field is set.
`now` stands for the `connectedAt: Date.now` schema default on the pushed
entry. -/
def linkOAuthProvider (u : User) (provider : String) (p : OAuthProfile) (now : Nat) : User :=
  let u1 :=
    if u.oauthProviders.any (fun e => e.provider == provider) then
      { u with oauthProviders := updateFirstProvider provider p u.oauthProviders }
    else
      let u' := { u with oauthProviders := u.oauthProviders ++
        [{ provider := provider, providerId := p.id, email := some p.email,
           displayName := p.displayName, avatar := p.avatar, connectedAt := now }] }
      let u'' := if provider == "google" then { u' with googleId := some p.id } else u'
      let u3 := if provider == "github" then { u'' with githubId := some p.id } else u''
      if provider == "apple" then { u3 with appleId := some p.id } else u3
  let u2 :=
    if u1.avatar.isNone && p.avatar.isSome then { u1 with avatar := p.avatar } else u1
  if p.emailVerified then { u2 with isVerified := true } else u2

/-- `userSchema.methods.unlinkOAuthProvider(provider)`: filters out the
entries for the provider and clears the matching provider-id field.  Note
the source performs NO last-credential check. -/
def unlinkOAuthProvider (u : User) (provider : String) : User :=
  let u1 := { u with oauthProviders :=
    u.oauthProviders.filter (fun p => !(p.provider == provider)) }
  let u2 := if provider == "google" then { u1 with googleId := none } else u1
  let u3 := if provider == "github" then { u2 with githubId := none } else u2
  if provider == "apple" then { u3 with appleId := none } else u3

/-- `userSchema.methods.addRefreshToken(token, expiresIn, device, ipAddress)`:
pushes the entry (with `expiresAt = Date.now() + expiresIn * 1000` and the
`createdAt: Date.now` default) and then keeps only the last 5 entries
(`slice(-5)`).  `now` is `Date.now()` in milliseconds. -/
def addRefreshToken (l : List RefreshTokenEntry) (token : Token) (expiresIn : Nat)
    (device ipAddress : Option String) (now : Nat) : List RefreshTokenEntry :=
  let l' := l ++ [{ token := token, createdAt := now,
                    expiresAt := now + expiresIn * 1000,
                    device := device, ipAddress := ipAddress }]
  if l'.length > 5 then l'.drop (l'.length - 5) else l'

/-- `userSchema.methods.removeRefreshToken(token)`:
`filter(rt => rt.token !== token)`. -/
def removeRefreshToken (l : List RefreshTokenEntry) (token : Token) :
    List RefreshTokenEntry :=
  l.filter (fun rt => !(rt.token == token))

/-- `userSchema.methods.cleanupExpiredTokens()`:
`filter(rt => rt.expiresAt > now)`. -/
def cleanupExpiredTokens (l : List RefreshTokenEntry) (now : Nat) :
    List RefreshTokenEntry :=
  l.filter (fun rt => rt.expiresAt > now)

/-- The schema's conditional `required` on `password`:
`return !this.googleId && !this.githubId && !this.appleId`. -/
def passwordRequired (u : User) : Bool :=
  u.googleId.isNone && u.githubId.isNone && u.appleId.isNone

/-- Mongoose save-time validation of the paths the claims touch: the
conditional `required` on `password` (`email` and `name` are `String`
fields of the embedding and always present).  A violation produces a
Mongoose `ValidationError`, whose `name` is `"ValidationError"`. -/
def validateUser (u : User) : Option JSError :=
  if u.password.isNone && passwordRequired u then
    some { name := "ValidationError", message := "Path `password` is required." }
  else none

/-! ## Persistence helpers (Mongoose collection as a `List User`) -/

def findByEmail (db : List User) (email : String) : Option User :=
  db.find? (fun u => u.email == email)

def findById (db : List User) (id : String) : Option User :=
  db.find? (fun u => u.id == id)

def findByGithubId (db : List User) (ghId : String) : Option User :=
  db.find? (fun u => u.githubId == some ghId)

/-- `user.save()` for an already-created document: runs validation, then
replaces the record with the same `id`.  On a validation error the stored
collection is unchanged. -/
def saveUser (db : List User) (u : User) : Except JSError (List User) :=
  match validateUser u with
  | some e => .error e
  | none => .ok (db.map (fun x => if x.id == u.id then u else x))

/-! ## Session orchestration (`src/routes/auth.js`, `src/middleware/auth.js`) -/

/-- An HTTP error response `(status, message)` as the handlers build it with
`res.status(...).json({ success: false, message })`. -/
abbrev HttpErr := Nat × String

/-- Success payload of `POST /register` and `POST /login`. -/
structure AuthOk where
  user : User
  accessToken : Token
  refreshToken : Token
  expiresIn : Nat := 900
  deriving DecidableEq, Repr

/-- A freshly `User.create`d document: the pre-save hook hashes the
password; Mongoose assigns an opaque unique id, modelled as derived from the
(unique-at-creation) email. -/
def createUser (email password name : String) : User :=
  { id := "id:" ++ email, email := email, name := name,
    password := some (bcryptHash password) }

/-- `POST /register` (`src/routes/auth.js`).  The handler checks for an
existing user, persists the new user via `User.create`, then generates both
tokens and saves the refresh token.  `signOk` models whether token issuance
(`jwt.sign`) throws; the handler's `catch` answers
`500 'Registration failed'` and performs no rollback, so the collection it
returns still contains the created user.  `nowMs` is `Date.now()`;
token clocks use `nowMs / 1000`. -/
def register (db : List User) (email password name : String)
    (device ipAddress : Option String) (nowMs : Nat) (signOk : Bool) :
    List User × Except HttpErr AuthOk :=
  match findByEmail db email with
  | some _ => (db, .error (400, "User already exists with this email"))
  | none =>
    let u := createUser email password name
    let dbCreated := db ++ [u]
    if ¬ signOk then
      (dbCreated, .error (500, "Registration failed"))
    else
      let accessToken := generateAccessToken u.id u.role (nowMs / 1000)
      let refreshToken := generateRefreshToken u.id (nowMs / 1000)
      let rts := addRefreshToken u.refreshTokens refreshToken (7 * 24 * 60 * 60) device ipAddress nowMs
      let u' := { u with refreshTokens := rts }
      match saveUser dbCreated u' with
      | .error _ => (dbCreated, .error (500, "Registration failed"))
      | .ok db' =>
        (db', .ok { user := u', accessToken := accessToken, refreshToken := refreshToken })

/-- `POST /login` (`src/routes/auth.js`).  Looks the user up with the
password selected, rejects with one identical message when the user is
missing or the password mismatches, then checks `isActive`, and on success
issues tokens, appends the refresh token, stamps `lastLogin`, prunes
expired entries and saves.  A failed attempt performs no write: the
returned collection equals the input.  The source tracks no
per-account failed-attempt state. -/
def login (db : List User) (email password : String)
    (device ipAddress : Option String) (nowMs : Nat) :
    List User × Except HttpErr AuthOk :=
  match findByEmail db email with
  | none => (db, .error (401, "Invalid email or password"))
  | some u =>
    if ¬ comparePassword u password then
      (db, .error (401, "Invalid email or password"))
    else if ¬ u.isActive then
      (db, .error (401, "Account is inactive. Please contact support."))
    else
      let accessToken := generateAccessToken u.id u.role (nowMs / 1000)
      let refreshToken := generateRefreshToken u.id (nowMs / 1000)
      let rts := addRefreshToken u.refreshTokens refreshToken (7 * 24 * 60 * 60) device ipAddress nowMs
      let u1 := { u with refreshTokens := rts }
      let u2 := { u1 with lastLogin := some nowMs }
      let u3 := { u2 with refreshTokens := cleanupExpiredTokens u2.refreshTokens nowMs }
      match saveUser db u3 with
      | .error _ => (db, .error (500, "Login failed"))
      | .ok db' =>
        (db', .ok { user := u3, accessToken := accessToken, refreshToken := refreshToken })

/-- `POST /refresh` (`src/routes/auth.js`).  Verifies the refresh token
(any throw is caught as `401 'Invalid or expired refresh token'`), loads the
user, checks `isActive`, then checks that the presented token string is
present in the user's current `refreshTokens`; if not, answers
`401 'Invalid refresh token'`.  On success it prunes expired entries,
saves, and issues a new access token only. -/
def refreshHandler (db : List User) (refreshToken : Token) (nowMs : Nat) :
    List User × Except HttpErr Token :=
  match verifyRefreshToken refreshToken (nowMs / 1000) with
  | .error _ => (db, .error (401, "Invalid or expired refresh token"))
  | .ok decoded =>
    match findById db decoded.userId with
    | none => (db, .error (401, "User not found or inactive"))
    | some u =>
      if ¬ u.isActive then (db, .error (401, "User not found or inactive"))
      else if ¬ u.refreshTokens.any (fun rt => rt.token == refreshToken) then
        (db, .error (401, "Invalid refresh token"))
      else
        let u' := { u with refreshTokens := cleanupExpiredTokens u.refreshTokens nowMs }
        match saveUser db u' with
        | .error _ => (db, .error (401, "Invalid or expired refresh token"))
        | .ok db' => (db', .ok (generateAccessToken u.id u.role (nowMs / 1000)))

/-- The revocation performed by `POST /logout` when a `refreshToken` is
supplied: `req.user.removeRefreshToken(refreshToken); await req.user.save()`.
The handler answers success regardless; the state change is what matters
here. -/
def logoutRemove (db : List User) (u : User) (refreshToken : Token) :
    List User × User :=
  let u' := { u with refreshTokens := removeRefreshToken u.refreshTokens refreshToken }
  match saveUser db u' with
  | .error _ => (db, u')
  | .ok db' => (db', u')

/-- The `Authorization` header as `authenticate` discriminates it: absent,
present but not starting with `'Bearer '`, or a bearer token. -/
inductive AuthHeader where
  | missing
  | notBearer
  | bearer (t : Token)
  deriving DecidableEq, Repr

/-- `authenticate` middleware (`src/middleware/auth.js`): checks the header,
verifies the access token, loads the user, checks `isActive`, and rejects
tokens issued before the last password change.  Every throw inside the
`try` is passed on to the error-handler middleware, so the result is the
raw thrown `JSError` — note `verifyAccessToken` throws a plain `Error`,
not an `AuthenticationError`. -/
def authenticate (h : AuthHeader) (db : List User) (nowS : Nat) :
    Except JSError User :=
  match h with
  | .missing => .error (mkAuthenticationError "No token provided")
  | .notBearer => .error (mkAuthenticationError "No token provided")
  | .bearer t =>
    match verifyAccessToken t nowS with
    | .error e => .error e
    | .ok decoded =>
      match findById db decoded.userId with
      | none => .error (mkAuthenticationError "User not found or inactive")
      | some u =>
        if ¬ u.isActive then .error (mkAuthenticationError "User not found or inactive")
        else if changedPasswordAfter u decoded.iat then
          .error (mkAuthenticationError "Password recently changed. Please login again.")
        else .ok u

/-- The `(status, code)` pair an authenticated route answers with when
`authenticate` rejects: the thrown error run through `errorHandler`. -/
def authResponse (h : AuthHeader) (db : List User) (nowS : Nat) :
    Option (Nat × String) :=
  match authenticate h db nowS with
  | .error e => some (errorHandler e)
  | .ok _ => none

/-! ## GitHub OAuth verify callback (`src/config/passport.js`) -/

/-- The GitHub strategy's verify callback, for a profile that did supply an
email.  Resolution: by `githubId`, else by `email` (link), else create;
then stamp `lastLogin` and save.  Returns the updated collection and the
user handed to `done`.  `now` is `Date.now()` in milliseconds.  The
strategy passes `emailVerified: true` unconditionally for GitHub. -/
def githubCallback (db : List User) (profileId : String) (email : String)
    (displayName : Option String) (avatar : Option String) (now : Nat) :
    List User × User :=
  let resolved : List User × User :=
    match findByGithubId db profileId with
    | some u => (db, u)
    | none =>
      match findByEmail db email with
      | some u =>
        let u' := linkOAuthProvider u "github"
          { id := profileId, email := email, displayName := displayName,
            avatar := avatar, emailVerified := true } now
        ((saveUser db u').toOption.getD db, u')
      | none =>
        let u : User :=
          { id := "id:" ++ email, email := email,
            name := displayName.getD email, githubId := some profileId,
            avatar := avatar, isVerified := true,
            oauthProviders := [{ provider := "github", providerId := profileId,
                                 email := some email, displayName := displayName,
                                 avatar := avatar, connectedAt := now }] }
        (db ++ [u], u)
  let (db1, u) := resolved
  let u' := { u with lastLogin := some now }
  ((saveUser db1 u').toOption.getD db1, u')

/-! ## Serialization (`userSchema.methods.toJSON`) -/

/-- A JavaScript value, as far as serialized user documents are concerned. -/
inductive JsValue where
  | vNull : JsValue
  | vStr : String → JsValue
  | vNum : Nat → JsValue
  | vBool : Bool → JsValue
  | vArr : List JsValue → JsValue
  | vObj : List (String × JsValue) → JsValue

/-- Property lookup on a serialized object. -/
def lookupKey (fields : List (String × JsValue)) (k : String) : Option JsValue :=
  (fields.find? (fun kv => kv.1 == k)).map (fun kv => kv.2)

/-- `delete obj[k]`. -/
def deleteKey (fields : List (String × JsValue)) (k : String) :
    List (String × JsValue) :=
  fields.filter (fun kv => !(kv.1 == k))

def optField (k : String) (v : Option JsValue) : List (String × JsValue) :=
  match v with
  | some x => [(k, x)]
  | none => []

/-- One `oauthProviders` entry as `toObject` materializes it: all stored
fields. -/
def oauthEntryToObject (e : OAuthProviderEntry) : JsValue :=
  .vObj ([("provider", .vStr e.provider), ("providerId", .vStr e.providerId)]
    ++ optField "email" (e.email.map .vStr)
    ++ optField "displayName" (e.displayName.map .vStr)
    ++ optField "avatar" (e.avatar.map .vStr)
    ++ optField "accessToken" (e.accessToken.map .vStr)
    ++ optField "refreshToken" (e.refreshToken.map .vStr)
    ++ [("connectedAt", .vNum e.connectedAt)])

/-- One `refreshTokens` entry as `toObject` materializes it.  The stored
JWT string is rendered from the token's claims and secret. -/
def refreshEntryToObject (e : RefreshTokenEntry) : JsValue :=
  .vObj [("token", .vStr (e.token.claims.userId ++ "." ++ e.token.secret)),
         ("createdAt", .vNum e.createdAt), ("expiresAt", .vNum e.expiresAt)]

/-- `this.toObject()`: the raw document with every stored path present
(optional paths only when set), including `password`, `refreshTokens`, the
full `oauthProviders` entries, and `__v`. -/
def userToObject (u : User) : List (String × JsValue) :=
  [("_id", .vStr u.id), ("email", .vStr u.email), ("name", .vStr u.name)]
  ++ optField "avatar" (u.avatar.map .vStr)
  ++ optField "password" (u.password.map .vStr)
  ++ optField "googleId" (u.googleId.map .vStr)
  ++ optField "githubId" (u.githubId.map .vStr)
  ++ optField "appleId" (u.appleId.map .vStr)
  ++ [("oauthProviders", .vArr (u.oauthProviders.map oauthEntryToObject)),
      ("role", .vStr u.role), ("isVerified", .vBool u.isVerified),
      ("isActive", .vBool u.isActive),
      ("refreshTokens", .vArr (u.refreshTokens.map refreshEntryToObject))]
  ++ optField "lastLogin" (u.lastLogin.map .vNum)
  ++ optField "passwordChangedAt" (u.passwordChangedAt.map .vNum)
  ++ [("__v", .vNum 0)]

/-- The map over `user.oauthProviders` in `toJSON`: each entry is reduced to
`{ provider, connectedAt }` (property access on a missing key yields
`undefined`, rendered `vNull`). -/
def reduceProviderValue (v : JsValue) : JsValue :=
  match v with
  | .vObj fields =>
    .vObj [("provider", (lookupKey fields "provider").getD .vNull),
           ("connectedAt", (lookupKey fields "connectedAt").getD .vNull)]
  | other => other

def mapProvidersValue (v : JsValue) : JsValue :=
  match v with
  | .vArr xs => .vArr (xs.map reduceProviderValue)
  | other => other

/-- The per-property rewrite `toJSON` performs: the `oauthProviders` value
is mapped, every other property is kept as is. -/
def oauthMapStep (kv : String × JsValue) : String × JsValue :=
  if kv.1 == "oauthProviders" then (kv.1, mapProvidersValue kv.2) else kv

/-- `userSchema.methods.toJSON()`: takes `toObject()`, deletes `password`,
`refreshTokens` and `__v`, and replaces `oauthProviders` with entries
reduced to `{ provider, connectedAt }`. -/
def userToJSON (u : User) : List (String × JsValue) :=
  let o := deleteKey (deleteKey (deleteKey (userToObject u) "password") "refreshTokens") "__v"
  o.map oauthMapStep

/-! ## Concrete fixtures -/

def alicePassword : String := "Secret123!"

/-- A fresh password account as `POST /register` creates it. -/
def alice : User :=
  { id := "id:alice@example.com", email := "alice@example.com", name := "Alice",
    password := some (bcryptHash alicePassword) }

def aliceDb : List User := [alice]

/-- An access-token-shaped token signed with a key that is not the server's
access secret: its signature verification fails. -/
def forgedToken : Token :=
  { claims := { userId := alice.id, role := some "user", typ := "access",
                iat := 0, exp := 1000000000 },
    secret := "attacker-secret" }

/-- A token correctly signed with the access secret but carrying
`type: 'refresh'`: only the `type` check rejects it. -/
def wrongTypeToken : Token :=
  { claims := { userId := alice.id, role := none, typ := "refresh",
                iat := 0, exp := 1000000000 },
    secret := ACCESS_TOKEN_SECRET }

/-- The refresh token issued to Bob at registration. -/
def bobRefreshToken : Token := generateRefreshToken "id:bob@example.com" 0

/-- Bob's account right after registration: one stored refresh token. -/
def bob : User :=
  { id := "id:bob@example.com", email := "bob@example.com", name := "Bob",
    password := some (bcryptHash "Password123!"),
    refreshTokens := [{ token := bobRefreshToken, createdAt := 0,
                        expiresAt := 604800000 }] }

/-- A user who already linked GitHub identity `X`. -/
def aliceGithubX : User :=
  { id := "id:alice2", email := "alice2@example.com", name := "Alice Two",
    password := some (bcryptHash "Secret123!"), githubId := some "X",
    oauthProviders := [{ provider := "github", providerId := "X", connectedAt := 5 }] }

/-- A password-only account with no linked identities. -/
def dave : User :=
  { id := "id:dave", email := "dave@example.com", name := "Dave",
    password := some (bcryptHash "Password123!") }

/-- Gina's single linked identity. -/
def ginaGoogleEntry : OAuthProviderEntry :=
  { provider := "google", providerId := "g1", connectedAt := 3 }

/-- An OAuth-only account: no password, exactly one linked identity. -/
def gina : User :=
  { id := "id:gina", email := "gina@example.com", name := "Gina",
    googleId := some "g1", oauthProviders := [ginaGoogleEntry] }

/-! ## Claims -/

/-- C1: the spec claims 5 consecutive failed logins with a correct email and
wrong password yield `AccountLocked` on the 5th attempt and on every later
attempt even with the correct password.  The login handler in
`src/routes/auth.js` and the `userSchema` in `src/models/User.js` keep no
failed-attempt state at all: a failed attempt writes nothing (iterating it
five times leaves the store unchanged), its response is the ordinary
`401 'Invalid email or password'`, and a following attempt with the correct
password succeeds — even though the repository's own tests
(`should lock account after multiple failed login attempts`,
`Account Lockout` suite) assert the locking behaviour. -/
theorem C1_login_has_no_lockout :
    (Nat.iterate
      (fun d => (login d "alice@example.com" "WrongPassword!" none none 1000000).1) 5 aliceDb
      = aliceDb)
    ∧ (login aliceDb "alice@example.com" "WrongPassword!" none none 1000000).2
        = .error (401, "Invalid email or password")
    ∧ (login aliceDb "alice@example.com" alicePassword none none 1000000).2.isOk = true := by
  refine ⟨rfl, rfl, rfl⟩

/-- C3: the spec claims an invalid or expired access token makes
`AuthenticateRequest` fail with the same typed `AuthenticationError` as a
missing header.  In the source, `verifyAccessToken` rethrows every
verification failure as a plain `Error`, which the `errorHandler`
middleware does not recognize: the response is `500 INTERNAL_ERROR`,
while a missing or malformed header does produce `401 AUTHENTICATION_ERROR`.
The repository's own test (`should reject access with invalid token`)
expects 401 `AUTHENTICATION_ERROR` for the invalid-token case. -/
theorem C3_invalid_token_yields_internal_error :
    authResponse (.bearer forgedToken) aliceDb 1000 = some (500, "INTERNAL_ERROR")
    ∧ authResponse (.bearer (generateAccessToken alice.id "user" 0)) aliceDb 2000
        = some (500, "INTERNAL_ERROR")
    ∧ authResponse (.bearer (generateRefreshToken alice.id 1000)) aliceDb 1000
        = some (500, "INTERNAL_ERROR")
    ∧ authResponse (.bearer wrongTypeToken) aliceDb 1000 = some (500, "INTERNAL_ERROR")
    ∧ authResponse .missing aliceDb 1000 = some (401, "AUTHENTICATION_ERROR")
    ∧ authResponse .notBearer aliceDb 1000 = some (401, "AUTHENTICATION_ERROR") := by
  refine ⟨rfl, rfl, rfl, rfl, rfl, rfl⟩

/-- C2 counterexample: one concrete invocation of `POST /register` on an
empty store in which token issuance throws after `User.create` succeeded.
The operation as a whole reports failure (500), yet the created User record
is still present in the store — so registration is not atomic as claimed. -/
theorem C2_register_not_atomic_cex :
    (register [] "alice@example.com" "Secret123!" "Alice" none none 1000000 false).2
      = .error (500, "Registration failed")
    ∧ findByEmail (register [] "alice@example.com" "Secret123!" "Alice" none none 1000000 false).1
        "alice@example.com"
      = some (createUser "alice@example.com" "Secret123!" "Alice") := by
  refine ⟨rfl, rfl⟩

/-- C2 amended: Register is not atomic.  For every invocation on a store
without the email, if token issuance throws after `User.create`, the
handler's `catch` reports failure (`500 'Registration failed'`) without any
rollback, and the created User record remains persisted. -/
theorem C2_register_failure_leaves_user (db : List User) (email password name : String)
    (device ipAddress : Option String) (nowMs : Nat)
    (hfresh : findByEmail db email = none) :
    (register db email password name device ipAddress nowMs false).2
      = .error (500, "Registration failed")
    ∧ (register db email password name device ipAddress nowMs false).1
      = db ++ [createUser email password name] := by
  simp [register, hfresh]

/-- C2 amended, witnessed at a concrete invocation. -/
theorem C2_register_failure_leaves_user_witness :
    findByEmail [] "bob@example.com" = none
    ∧ ((register [] "bob@example.com" "Password123!" "Bob" none none 5 false).2
        = .error (500, "Registration failed")
      ∧ (register [] "bob@example.com" "Password123!" "Bob" none none 5 false).1
        = [] ++ [createUser "bob@example.com" "Password123!" "Bob"]) :=
  ⟨rfl, C2_register_failure_leaves_user [] "bob@example.com" "Password123!" "Bob" none none 5 rfl⟩

/-- `addRefreshToken` caps the list at 5: the result length is exactly
`min (length + 1) 5`. -/
theorem addRefreshToken_length (l : List RefreshTokenEntry) (t : Token) (e : Nat)
    (d i : Option String) (n : Nat) :
    (addRefreshToken l t e d i n).length = min (l.length + 1) 5 := by
  simp only [addRefreshToken]
  split
  · rename_i h
    simp only [List.length_drop, List.length_append, List.length_cons, List.length_nil] at h ⊢
    omega
  · rename_i h
    simp only [List.length_append, List.length_cons, List.length_nil] at h ⊢
    omega

/-- The entry `addRefreshToken` pushes. -/
def mkEntry (t : Token) (e : Nat) (d i : Option String) (n : Nat) : RefreshTokenEntry :=
  { token := t, createdAt := n, expiresAt := n + e * 1000, device := d, ipAddress := i }

/-- Below the cap, `addRefreshToken` is a plain append. -/
theorem addRefreshToken_low (l : List RefreshTokenEntry) (t : Token) (e : Nat)
    (d i : Option String) (n : Nat) (h : l.length ≤ 4) :
    addRefreshToken l t e d i n = l ++ [mkEntry t e d i n] := by
  simp only [addRefreshToken, mkEntry]
  rw [if_neg]
  simp only [List.length_append, List.length_cons, List.length_nil]
  omega

/-- At the cap, `addRefreshToken` appends and evicts the oldest entry. -/
theorem addRefreshToken_cap (l : List RefreshTokenEntry) (t : Token) (e : Nat)
    (d i : Option String) (n : Nat) (h : l.length = 5) :
    addRefreshToken l t e d i n = (l ++ [mkEntry t e d i n]).drop 1 := by
  simp only [addRefreshToken, mkEntry]
  rw [if_pos]
  · congr 1
    simp [h]
  · simp [h]

/-- Distinct placeholder tokens for concrete scenarios. -/
def tokN (k : Nat) : Token :=
  { claims := { userId := toString k, role := none, typ := "refresh",
                iat := 0, exp := 0 },
    secret := "s" }

/-- C4: every mutation of `refreshTokens` keeps its length at most 5, and
adding a 6th token via `addRefreshToken` to a list built from 6 insertions
leaves exactly the last five tokens in insertion order: the 6th present,
the 1st evicted, newest last. -/
theorem C4_refresh_cap
    (l : List RefreshTokenEntry) (t : Token) (e : Nat) (d i : Option String) (n : Nat)
    (hl : l.length ≤ 5)
    (t1 t2 t3 t4 t5 t6 : Token) :
    (addRefreshToken l t e d i n).length ≤ 5
    ∧ (removeRefreshToken l t).length ≤ 5
    ∧ (cleanupExpiredTokens l n).length ≤ 5
    ∧ ((addRefreshToken (addRefreshToken (addRefreshToken (addRefreshToken (addRefreshToken
          (addRefreshToken [] t1 e d i n) t2 e d i n) t3 e d i n) t4 e d i n) t5 e d i n)
          t6 e d i n).map (fun rt => rt.token) = [t2, t3, t4, t5, t6]) := by
  refine ⟨?_, ?_, ?_, ?_⟩
  · rw [addRefreshToken_length]; omega
  · exact le_trans (List.length_filter_le _ _) hl
  · exact le_trans (List.length_filter_le _ _) hl
  · rw [addRefreshToken_low [] t1 e d i n (by simp)]
    simp only [List.nil_append]
    rw [addRefreshToken_low [mkEntry t1 e d i n] t2 e d i n (by simp)]
    simp only [List.cons_append, List.nil_append]
    rw [addRefreshToken_low [mkEntry t1 e d i n, mkEntry t2 e d i n] t3 e d i n (by simp)]
    simp only [List.cons_append, List.nil_append]
    rw [addRefreshToken_low [mkEntry t1 e d i n, mkEntry t2 e d i n, mkEntry t3 e d i n]
        t4 e d i n (by simp)]
    simp only [List.cons_append, List.nil_append]
    rw [addRefreshToken_low [mkEntry t1 e d i n, mkEntry t2 e d i n, mkEntry t3 e d i n,
        mkEntry t4 e d i n] t5 e d i n (by simp)]
    simp only [List.cons_append, List.nil_append]
    rw [addRefreshToken_cap [mkEntry t1 e d i n, mkEntry t2 e d i n, mkEntry t3 e d i n,
        mkEntry t4 e d i n, mkEntry t5 e d i n] t6 e d i n (by simp)]
    simp [mkEntry]

/-- C4, witnessed at a concrete list and concrete tokens. -/
theorem C4_refresh_cap_witness :
    ([] : List RefreshTokenEntry).length ≤ 5
    ∧ ((addRefreshToken [] (tokN 0) 604800 none none 9).length ≤ 5
      ∧ (removeRefreshToken [] (tokN 0)).length ≤ 5
      ∧ (cleanupExpiredTokens [] 9).length ≤ 5
      ∧ ((addRefreshToken (addRefreshToken (addRefreshToken (addRefreshToken (addRefreshToken
            (addRefreshToken [] (tokN 1) 604800 none none 9) (tokN 2) 604800 none none 9)
            (tokN 3) 604800 none none 9) (tokN 4) 604800 none none 9)
            (tokN 5) 604800 none none 9)
            (tokN 6) 604800 none none 9).map (fun rt => rt.token)
          = [tokN 2, tokN 3, tokN 4, tokN 5, tokN 6])) :=
  ⟨by decide,
   C4_refresh_cap [] (tokN 0) 604800 none none 9 (by decide)
     (tokN 1) (tokN 2) (tokN 3) (tokN 4) (tokN 5) (tokN 6)⟩

/-- The two signing secrets in `src/utils/jwt.js` are distinct. -/
theorem secrets_ne : ¬ (ACCESS_TOKEN_SECRET = REFRESH_TOKEN_SECRET) := by decide

/-- The two signing secrets, in the other orientation. -/
theorem secrets_ne' : ¬ (REFRESH_TOKEN_SECRET = ACCESS_TOKEN_SECRET) := by decide

/-- C5: token type isolation.  Every generated access token fails
`verifyRefreshToken` and every generated refresh token fails
`verifyAccessToken`, each with the uniform `InvalidToken`-style plain
error; and `verifyAccessToken` fails with exactly that error precisely when
the signature is invalid, the token is expired, or the `type` claim is not
`'access'` — with the symmetric characterization for `verifyRefreshToken`. -/
theorem C5_token_type_isolation :
    (∀ uid role nowI nowV, verifyRefreshToken (generateAccessToken uid role nowI) nowV
        = .error (plainError "Invalid or expired refresh token"))
    ∧ (∀ uid nowI nowV, verifyAccessToken (generateRefreshToken uid nowI) nowV
        = .error (plainError "Invalid or expired access token"))
    ∧ (∀ t now, verifyAccessToken t now = .error (plainError "Invalid or expired access token")
        ↔ (t.secret ≠ ACCESS_TOKEN_SECRET ∨ t.claims.exp ≤ now ∨ t.claims.typ ≠ "access"))
    ∧ (∀ t now, verifyRefreshToken t now = .error (plainError "Invalid or expired refresh token")
        ↔ (t.secret ≠ REFRESH_TOKEN_SECRET ∨ t.claims.exp ≤ now ∨ t.claims.typ ≠ "refresh")) := by
  refine ⟨?_, ?_, ?_, ?_⟩
  · intro uid role nowI nowV
    simp [verifyRefreshToken, jwtVerify, generateAccessToken, secrets_ne]
  · intro uid nowI nowV
    simp [verifyAccessToken, jwtVerify, generateRefreshToken, secrets_ne']
  · intro t now
    simp only [verifyAccessToken, jwtVerify]
    by_cases h1 : t.secret = ACCESS_TOKEN_SECRET
    · by_cases h2 : t.claims.exp ≤ now
      · simp [h1, h2]
      · by_cases h3 : t.claims.typ = "access"
        · simp [h1, h2, h3]
        · simp [h1, h2, h3]
    · simp [h1]
  · intro t now
    simp only [verifyRefreshToken, jwtVerify]
    by_cases h1 : t.secret = REFRESH_TOKEN_SECRET
    · by_cases h2 : t.claims.exp ≤ now
      · simp [h1, h2]
      · by_cases h3 : t.claims.typ = "refresh"
        · simp [h1, h2, h3]
        · simp [h1, h2, h3]
    · simp [h1]

/-- After `removeRefreshToken`, no stored entry carries the removed token
string. -/
theorem removeRefreshToken_not_mem (l : List RefreshTokenEntry) (t : Token) :
    (removeRefreshToken l t).any (fun rt => rt.token == t) = false := by
  induction l with
  | nil => rfl
  | cons x xs ih =>
    by_cases h : (x.token == t) = true
    · simp only [removeRefreshToken, List.filter_cons, h] at ih ⊢
      simp [ih]
    · simp only [Bool.not_eq_true] at h
      simp only [removeRefreshToken, List.filter_cons, h] at ih ⊢
      simp [h, ih]

/-- C6: a refresh token revoked by `POST /logout` is rejected by
`POST /refresh`.  For a persisted (validation-clean) active user whose
stored record the logout revocation updated, presenting the same token
string to the refresh handler answers `401 'Invalid refresh token'`,
because the handler rejects any token not present in the user's current
`refreshTokens`. -/
theorem C6_revoked_refresh_rejected (u : User) (rt : Token) (nowMs : Nat) (c : Claims)
    (hverify : verifyRefreshToken rt (nowMs / 1000) = .ok c)
    (hid : u.id = c.userId)
    (hactive : u.isActive = true)
    (hvalid : validateUser u = none) :
    (refreshHandler (logoutRemove [u] u rt).1 rt nowMs).2
      = .error (401, "Invalid refresh token") := by
  have hval' : validateUser
      { u with refreshTokens := removeRefreshToken u.refreshTokens rt } = none := hvalid
  simp only [logoutRemove, saveUser, hval']
  simp only [refreshHandler, hverify]
  simp [findById, hid, hactive, removeRefreshToken_not_mem]

/-- C6, witnessed: Bob registers (one stored refresh token), logs out with
it, and the refresh call with the same token is rejected. -/
theorem C6_revoked_refresh_rejected_witness :
    (verifyRefreshToken bobRefreshToken (1000000 / 1000) = .ok bobRefreshToken.claims
    ∧ bob.id = bobRefreshToken.claims.userId
    ∧ bob.isActive = true
    ∧ validateUser bob = none)
    ∧ (refreshHandler (logoutRemove [bob] bob bobRefreshToken).1 bobRefreshToken 1000000).2
        = .error (401, "Invalid refresh token") :=
  ⟨⟨rfl, rfl, rfl, rfl⟩,
   C6_revoked_refresh_rejected bob bobRefreshToken 1000000 bobRefreshToken.claims
     rfl rfl rfl rfl⟩

/-- C7: stale-token rejection.  For every user and every access token that
verifies (valid signature, unexpired, right type), if the token's
issued-at second precedes the second of the user's `passwordChangedAt`
(the comparison `changedPasswordAfter` performs), `authenticate` rejects
the request with the `AuthenticationError` for a recently changed
password, even though the token's own expiry has not passed. -/
theorem C7_stale_token_rejected (t : Token) (db : List User) (u : User) (nowS : Nat)
    (c : Claims) (pca : Nat)
    (hverify : verifyAccessToken t nowS = .ok c)
    (hfind : findById db c.userId = some u)
    (hactive : u.isActive = true)
    (hpca : u.passwordChangedAt = some pca)
    (hstale : c.iat < pca / 1000) :
    authenticate (.bearer t) db nowS
      = .error (mkAuthenticationError "Password recently changed. Please login again.") := by
  simp only [authenticate, hverify, hfind]
  simp [changedPasswordAfter, hactive, hpca, hstale]

/-- Carol changed her password at millisecond 200500. -/
def carol : User :=
  { id := "id:carol@example.com", email := "carol@example.com", name := "Carol",
    password := some (bcryptHash "Password123!"), passwordChangedAt := some 200500 }

/-- An access token for Carol issued at second 100, before the password
change, and still unexpired at second 200. -/
def carolStaleToken : Token := generateAccessToken "id:carol@example.com" "user" 100

/-- C7, witnessed on Carol's stale but unexpired token. -/
theorem C7_stale_token_rejected_witness :
    (verifyAccessToken carolStaleToken 200 = .ok carolStaleToken.claims
    ∧ findById [carol] carolStaleToken.claims.userId = some carol
    ∧ carol.isActive = true
    ∧ carol.passwordChangedAt = some 200500
    ∧ carolStaleToken.claims.iat < 200500 / 1000)
    ∧ authenticate (.bearer carolStaleToken) [carol] 200
        = .error (mkAuthenticationError "Password recently changed. Please login again.") :=
  ⟨⟨rfl, rfl, rfl, rfl, by decide⟩,
   C7_stale_token_rejected carolStaleToken [carol] carol 200 carolStaleToken.claims 200500
     rfl rfl rfl rfl (by decide)⟩

/-- When some entry matches, `updateFirstProvider` leaves the first matching
entry in place with its `providerId` replaced by the profile's id. -/
theorem find_updateFirstProvider (l : List OAuthProviderEntry) (pr : String) (p : OAuthProfile)
    (h : l.any (fun e => e.provider == pr) = true) :
    ∃ en, (updateFirstProvider pr p l).find? (fun e => e.provider == pr) = some en
      ∧ en.providerId = p.id := by
  induction l with
  | nil => simp at h
  | cons x xs ih =>
    by_cases hx : (x.provider == pr) = true
    · exact ⟨{ x with providerId := p.id, email := some p.email, displayName := p.displayName, avatar := p.avatar }, by simp [updateFirstProvider, hx, List.find?], rfl⟩
    · simp only [Bool.not_eq_true] at hx
      simp only [List.any_cons, hx, Bool.false_or] at h
      obtain ⟨en, hen, hp⟩ := ih h
      exact ⟨en, by simp [updateFirstProvider, hx, List.find?, hen], hp⟩

/-- When no entry matches, `find?` on the list with a matching entry
appended yields that entry. -/
theorem find_append_matching (l : List OAuthProviderEntry) (x : OAuthProviderEntry) (pr : String)
    (h : l.any (fun e => e.provider == pr) = false) (hx : (x.provider == pr) = true) :
    (l ++ [x]).find? (fun e => e.provider == pr) = some x := by
  induction l with
  | nil => simp [List.find?, hx]
  | cons y ys ih =>
    simp only [List.any_cons, Bool.or_eq_false_iff] at h
    simp [List.find?, h.1, ih h.2]

/-- Replacing-or-not, a save through `saveUser` never changes the number of
stored users; on a validation failure the store is returned unchanged. -/
theorem saveUser_getD_length (d : List User) (w : User) :
    ((saveUser d w).toOption.getD d).length = d.length := by
  unfold saveUser
  cases validateUser w <;> simp [Except.toOption]

/-- C8 counterexample: GitHub assertion `(github, Y)` with an email that
matches an existing User who already has a `github` entry `(github, X)`.
The `(provider, subject)` pair is unknown and the email matches, yet after
the callback the User's `githubId` field still holds `X`, not the new
subject id `Y` — the claim's "setting the provider-specific id field" fails
because `linkOAuthProvider` only sets it when pushing a brand-new entry. -/
theorem C8_replaced_entry_id_field_cex :
    findByGithubId [aliceGithubX] "Y" = none
    ∧ findByEmail [aliceGithubX] "alice2@example.com" = some aliceGithubX
    ∧ (githubCallback [aliceGithubX] "Y" "alice2@example.com" none none 777).2.githubId
        = some "X"
    ∧ ¬ ((githubCallback [aliceGithubX] "Y" "alice2@example.com" none none 777).2.githubId
        = some "Y") := by
  refine ⟨rfl, rfl, rfl, by decide⟩

/-- The profile object the GitHub strategy hands to `linkOAuthProvider`
(GitHub assertions are treated as email-verified). -/
def mkGithubProfile (pid email : String) (dn av : Option String) : OAuthProfile :=
  { id := pid, email := email, displayName := dn, avatar := av, emailVerified := true }

/-- The entry pushed by `linkOAuthProvider` when no `github` entry existed
(`connectedAt` filled by the schema default). -/
def newGithubEntry (p : OAuthProfile) (now : Nat) : OAuthProviderEntry :=
  { provider := "github", providerId := p.id, email := some p.email,
    displayName := p.displayName, avatar := p.avatar, connectedAt := now }

/-- Field-level description of `linkOAuthProvider` for the `github`
provider: how `oauthProviders`, `githubId`, `isVerified`, `id` and `email`
come out, in both the replace-existing-entry and the push-new-entry case. -/
theorem linkOAuthProvider_github_proj (u : User) (p : OAuthProfile) (now : Nat) :
    ((linkOAuthProvider u "github" p now).oauthProviders
        = if u.oauthProviders.any (fun e => e.provider == "github")
          then updateFirstProvider "github" p u.oauthProviders
          else u.oauthProviders ++ [newGithubEntry p now])
    ∧ ((linkOAuthProvider u "github" p now).githubId
        = if u.oauthProviders.any (fun e => e.provider == "github")
          then u.githubId else some p.id)
    ∧ ((linkOAuthProvider u "github" p now).isVerified
        = (p.emailVerified || u.isVerified))
    ∧ (linkOAuthProvider u "github" p now).id = u.id
    ∧ (linkOAuthProvider u "github" p now).email = u.email := by
  unfold linkOAuthProvider
  by_cases hany : u.oauthProviders.any (fun e => e.provider == "github") = true <;>
    by_cases hev : p.emailVerified = true <;>
      by_cases hava : (u.avatar.isNone && p.avatar.isSome) = true <;>
        simp [hany, hev, hava, newGithubEntry]

/-- C8 amended: for an assertion whose `(github, providerSubjectId)` is
unknown but whose email matches an existing User, the callback links the
identity into that User rather than creating a second one: the store keeps
its size, the User's (first) `github` entry afterwards carries the new
subject id, `isVerified` is set (GitHub reports the email verified), and
the `githubId` field is set only when the User had no pre-existing `github`
entry — when one existed, the entry is replaced but `githubId` keeps its
old value. -/
theorem C8_email_link_amended (db : List User) (pid email : String)
    (dn av : Option String) (now : Nat) (u : User)
    (hgh : findByGithubId db pid = none)
    (hem : findByEmail db email = some u) :
    ((githubCallback db pid email dn av now).1.length = db.length)
    ∧ (∃ en, (githubCallback db pid email dn av now).2.oauthProviders.find?
          (fun e => e.provider == "github") = some en ∧ en.providerId = pid)
    ∧ (githubCallback db pid email dn av now).2.isVerified = true
    ∧ (githubCallback db pid email dn av now).2.githubId
        = (if u.oauthProviders.any (fun e => e.provider == "github") then u.githubId
           else some pid)
    ∧ (githubCallback db pid email dn av now).2.id = u.id
    ∧ (githubCallback db pid email dn av now).2.email = u.email := by
  obtain ⟨hops, hgid, hver, hid2, hem2⟩ :=
    linkOAuthProvider_github_proj u (mkGithubProfile pid email dn av) now
  have h2 : (githubCallback db pid email dn av now).2
      = { linkOAuthProvider u "github" (mkGithubProfile pid email dn av) now
          with lastLogin := some now } := by
    simp [githubCallback, hgh, hem, mkGithubProfile]
  have h1 : (githubCallback db pid email dn av now).1.length = db.length := by
    simp [githubCallback, hgh, hem, saveUser_getD_length]
  refine ⟨h1, ?_, ?_, ?_, ?_, ?_⟩
  · rw [h2]
    by_cases hany : u.oauthProviders.any (fun e => e.provider == "github") = true
    · obtain ⟨en, hen, hp⟩ := find_updateFirstProvider u.oauthProviders "github"
        (mkGithubProfile pid email dn av) hany
      refine ⟨en, ?_, hp⟩
      show (linkOAuthProvider u "github" (mkGithubProfile pid email dn av)
        now).oauthProviders.find? (fun e => e.provider == "github") = some en
      rw [hops, if_pos hany]
      exact hen
    · simp only [Bool.not_eq_true] at hany
      refine ⟨newGithubEntry (mkGithubProfile pid email dn av) now, ?_, rfl⟩
      show (linkOAuthProvider u "github" (mkGithubProfile pid email dn av)
        now).oauthProviders.find? (fun e => e.provider == "github")
        = some (newGithubEntry (mkGithubProfile pid email dn av) now)
      rw [hops, if_neg (by simp [hany])]
      exact find_append_matching u.oauthProviders
        (newGithubEntry (mkGithubProfile pid email dn av) now) "github" hany rfl
  · rw [h2]
    show (linkOAuthProvider u "github" (mkGithubProfile pid email dn av)
      now).isVerified = true
    rw [hver]
    rfl
  · rw [h2]
    show (linkOAuthProvider u "github" (mkGithubProfile pid email dn av)
      now).githubId = _
    exact hgid
  · rw [h2]
    exact hid2
  · rw [h2]
    exact hem2

/-- C8 amended, witnessed: Dave has a password account and no linked
identities; the GitHub callback for subject `42` with his email links into
his record. -/
theorem C8_email_link_amended_witness :
    (findByGithubId [dave] "42" = none
    ∧ findByEmail [dave] "dave@example.com" = some dave)
    ∧ (((githubCallback [dave] "42" "dave@example.com" none none 7).1.length = [dave].length)
      ∧ (∃ en, (githubCallback [dave] "42" "dave@example.com" none none 7).2.oauthProviders.find?
            (fun e => e.provider == "github") = some en ∧ en.providerId = "42")
      ∧ (githubCallback [dave] "42" "dave@example.com" none none 7).2.isVerified = true
      ∧ (githubCallback [dave] "42" "dave@example.com" none none 7).2.githubId
          = (if dave.oauthProviders.any (fun e => e.provider == "github") then dave.githubId
             else some "42")
      ∧ (githubCallback [dave] "42" "dave@example.com" none none 7).2.id = dave.id
      ∧ (githubCallback [dave] "42" "dave@example.com" none none 7).2.email = dave.email) :=
  ⟨⟨rfl, rfl⟩, C8_email_link_amended [dave] "42" "dave@example.com" none none 7 dave rfl rfl⟩

/-- C9 counterexample: Gina has no password and a single linked identity
(google).  The claim says the unlink operation fails with
`LastCredentialRemoval` and leaves the User unchanged; but
`unlinkOAuthProvider` in `src/models/User.js` performs no credential check
and cannot fail — on this input it removes the entry and clears the id
field, changing the User. -/
theorem C9_unlink_no_guard_cex :
    gina.password = none
    ∧ gina.oauthProviders.length = 1
    ∧ unlinkOAuthProvider gina "google" ≠ gina
    ∧ (unlinkOAuthProvider gina "google").oauthProviders = []
    ∧ (unlinkOAuthProvider gina "google").googleId = none := by
  refine ⟨rfl, rfl, by decide, rfl, rfl⟩

/-- C9 amended: `unlinkOAuthProvider` itself never fails; for a User with
no password and only a google identity it removes the entry and clears
`googleId` in memory.  The schema's conditional `required` validator on
`password` then rejects any save of the resulting document (a Mongoose
`ValidationError`, not a `LastCredentialRemoval`), so the persisted User is
left unchanged by `saveUser`. -/
theorem C9_unlink_blocked_at_save (db : List User) (u : User) (e : OAuthProviderEntry)
    (hpw : u.password = none) (hops : u.oauthProviders = [e])
    (hprov : e.provider = "google")
    (hgh : u.githubId = none) (hap : u.appleId = none) :
    (unlinkOAuthProvider u "google").oauthProviders = []
    ∧ (unlinkOAuthProvider u "google").googleId = none
    ∧ (∃ err, saveUser db (unlinkOAuthProvider u "google") = .error err
        ∧ err.name = "ValidationError") := by
  have hfil : (unlinkOAuthProvider u "google").oauthProviders = [] := by
    simp [unlinkOAuthProvider, hops, hprov]
  have hgid : (unlinkOAuthProvider u "google").googleId = none := by
    simp [unlinkOAuthProvider]
  refine ⟨hfil, hgid, ?_⟩
  refine ⟨{ name := "ValidationError", message := "Path `password` is required." }, ?_, rfl⟩
  have hreq : passwordRequired (unlinkOAuthProvider u "google") = true := by
    simp [passwordRequired, unlinkOAuthProvider, hgh, hap]
  have hpw' : (unlinkOAuthProvider u "google").password = none := by
    simp [unlinkOAuthProvider, hpw]
  simp [saveUser, validateUser, hreq, hpw']

/-- C9 amended, witnessed on Gina. -/
theorem C9_unlink_blocked_at_save_witness :
    (gina.password = none
    ∧ gina.oauthProviders = [ginaGoogleEntry]
    ∧ ginaGoogleEntry.provider = "google"
    ∧ gina.githubId = none ∧ gina.appleId = none)
    ∧ ((unlinkOAuthProvider gina "google").oauthProviders = []
      ∧ (unlinkOAuthProvider gina "google").googleId = none
      ∧ (∃ err, saveUser [gina] (unlinkOAuthProvider gina "google") = .error err
          ∧ err.name = "ValidationError")) :=
  ⟨⟨rfl, rfl, rfl, rfl, rfl⟩,
   C9_unlink_blocked_at_save [gina] gina ginaGoogleEntry rfl rfl rfl rfl rfl⟩

/-- Property lookup on a cons cell. -/
theorem lookupKey_cons (kv : String × JsValue) (l : List (String × JsValue)) (k : String) :
    lookupKey (kv :: l) k = if (kv.1 == k) = true then some kv.2 else lookupKey l k := by
  simp only [lookupKey, List.find?_cons]
  cases h : (kv.1 == k) <;> simp

/-- Looking up a deleted key yields nothing. -/
theorem lookupKey_deleteKey_self (o : List (String × JsValue)) (k : String) :
    lookupKey (deleteKey o k) k = none := by
  induction o with
  | nil => rfl
  | cons kv rest ih =>
    by_cases hd : kv.1 = k
    · simp only [deleteKey, List.filter_cons, hd] at ih ⊢
      simp [ih]
    · simp only [deleteKey, List.filter_cons] at ih ⊢
      simp [hd, lookupKey_cons, ih]

/-- Deleting one key does not affect the lookup of another. -/
theorem lookupKey_deleteKey_ne (o : List (String × JsValue)) (k k' : String)
    (h : ¬ k = k') :
    lookupKey (deleteKey o k') k = lookupKey o k := by
  induction o with
  | nil => rfl
  | cons kv rest ih =>
    by_cases hd : kv.1 = k'
    · have hk : ¬ kv.1 = k := fun hh => h (by rw [← hh, hd])
      simp only [deleteKey, List.filter_cons] at ih ⊢
      simp [hd, hk, lookupKey_cons, ih, Ne.symm h]
    · simp only [deleteKey, List.filter_cons] at ih ⊢
      by_cases hk : kv.1 = k <;> simp [hd, hk, lookupKey_cons, ih, h]

/-- The `toJSON` property map does not affect lookups of keys other than
`oauthProviders`. -/
theorem lookupKey_mapStep_ne (o : List (String × JsValue)) (k : String)
    (h : ¬ k = "oauthProviders") :
    lookupKey (o.map oauthMapStep) k = lookupKey o k := by
  induction o with
  | nil => rfl
  | cons kv rest ih =>
    by_cases hkv : kv.1 = "oauthProviders"
    · have hk : ¬ kv.1 = k := fun hh => h (by rw [← hh, hkv])
      simp [oauthMapStep, hkv, hk, lookupKey_cons, ih, Ne.symm h]
    · by_cases hk : kv.1 = k <;> simp [oauthMapStep, hkv, hk, lookupKey_cons, ih, h, Ne.symm h]

/-- The `toJSON` property map transforms the `oauthProviders` value. -/
theorem lookupKey_mapStep_oauth (o : List (String × JsValue)) :
    lookupKey (o.map oauthMapStep) "oauthProviders"
      = (lookupKey o "oauthProviders").map mapProvidersValue := by
  induction o with
  | nil => rfl
  | cons kv rest ih =>
    by_cases hkv : kv.1 = "oauthProviders"
    · simp [oauthMapStep, hkv, lookupKey_cons]
    · simp [oauthMapStep, hkv, lookupKey_cons, ih]

/-- An optional field with a different key contributes nothing to a lookup. -/
theorem lookupKey_optField_ne (k k' : String) (v : Option JsValue)
    (h : ¬ k' = k) :
    lookupKey (optField k' v) k = none := by
  cases v <;> simp [optField, lookupKey, lookupKey_cons, h]

/-- Lookup distributes over append. -/
theorem lookupKey_append (a b : List (String × JsValue)) (k : String) :
    lookupKey (a ++ b) k = (lookupKey a k).or (lookupKey b k) := by
  simp only [lookupKey, List.find?_append]
  cases a.find? (fun kv => kv.1 == k) <;> simp

/-- The raw document exposes the full `oauthProviders` entries. -/
theorem lookup_userToObject_oauth (u : User) :
    lookupKey (userToObject u) "oauthProviders"
      = some (.vArr (u.oauthProviders.map oauthEntryToObject)) := by
  simp only [userToObject, lookupKey_append]
  rw [lookupKey_optField_ne _ _ _ (by decide), lookupKey_optField_ne _ _ _ (by decide),
      lookupKey_optField_ne _ _ _ (by decide), lookupKey_optField_ne _ _ _ (by decide),
      lookupKey_optField_ne _ _ _ (by decide), lookupKey_optField_ne _ _ _ (by decide),
      lookupKey_optField_ne _ _ _ (by decide)]
  rfl

/-- Reducing a materialized provider entry keeps exactly `provider` and
`connectedAt`. -/
theorem reduce_oauthEntry (e : OAuthProviderEntry) :
    reduceProviderValue (oauthEntryToObject e)
      = .vObj [("provider", .vStr e.provider), ("connectedAt", .vNum e.connectedAt)] := by
  obtain ⟨pr, pid, em, dn, av, a1, r1, ca⟩ := e
  cases em <;> cases dn <;> cases av <;> cases a1 <;> cases r1 <;> rfl

/-- C10: the serialized view `toJSON` returns for any User contains no
`password` property and no `refreshTokens` property, and its
`oauthProviders` array holds, for each stored entry, exactly the
`provider` name and `connectedAt` timestamp — the stored per-provider
`accessToken`, `refreshToken`, `email`, `displayName` and `avatar` never
appear in the output. -/
theorem C10_toJSON_strips (u : User) :
    lookupKey (userToJSON u) "password" = none
    ∧ lookupKey (userToJSON u) "refreshTokens" = none
    ∧ lookupKey (userToJSON u) "oauthProviders"
        = some (.vArr (u.oauthProviders.map (fun e =>
            .vObj [("provider", .vStr e.provider), ("connectedAt", .vNum e.connectedAt)]))) := by
  refine ⟨?_, ?_, ?_⟩
  · simp only [userToJSON]
    rw [lookupKey_mapStep_ne _ _ (by simp),
        lookupKey_deleteKey_ne _ _ _ (by simp),
        lookupKey_deleteKey_ne _ _ _ (by simp),
        lookupKey_deleteKey_self]
  · simp only [userToJSON]
    rw [lookupKey_mapStep_ne _ _ (by simp),
        lookupKey_deleteKey_ne _ _ _ (by simp),
        lookupKey_deleteKey_self]
  · simp only [userToJSON]
    rw [lookupKey_mapStep_oauth,
        lookupKey_deleteKey_ne _ _ _ (by simp),
        lookupKey_deleteKey_ne _ _ _ (by simp),
        lookupKey_deleteKey_ne _ _ _ (by simp),
        lookup_userToObject_oauth]
    simp [mapProvidersValue, List.map_map, Function.comp, reduce_oauthEntry]

end Unsugar
